import Mathlib

/-!
Shallow embedding of the adaptive quiz engine and gamification state machine
of the Agentic-AI-Tutor repository (`src/backend/quiz_generator.py` and
`src/backend/gamification_engine.py`), together with theorems settling the
specification claims about streaks, coins, levels, achievements, quiz
generation, scoring, and difficulty adaptation.

Conventions of the embedding:

* Python `int` values are `Int` (coins can be spent, so they are signed) or
  `Nat` (counters, XP, levels); quantities computed with true division
  (percentages, averages) are `ℚ`.
* `datetime` values are modelled at calendar-day granularity as `Int` day
  numbers: the streak logic only ever compares `.date()` values, and no other
  modelled code inspects a timestamp.  ISO timestamp strings that are stored
  but never interpreted are kept as `String`/`Int` fields.
* Python dicts are insertion-ordered association lists `List (K × V)`;
  `d[k] = v` is `setAssoc` (update in place, else append), `d.get k default`
  is `(l.lookup k).getD default`.
* `random.sample` is an oracle parameter `sample : List Question → Nat →
  List Question`; the float multiplier pipeline of `award_coins` and the
  ambient RNG it uses are abstracted into the realized integer award
  (see `award_coins` below).  Persistence (`_save_*`) and logging are no-ops
  on the modelled state and are omitted.
-/

namespace AgenticTutor

/-- Python dict assignment `d[key] = v` on an insertion-ordered dict:
replace the value of an existing key in place, otherwise append the new
binding at the end. -/
def setAssoc {α : Type} (key : String) (v : α) : List (String × α) → List (String × α)
  | [] => [(key, v)]
  | (k, w) :: rest => if k = key then (k, v) :: rest else (k, w) :: setAssoc key v rest

/-- `StudentProfile` dataclass (gamification_engine.py, lines 54-70).
`last_activity` is an `Option` so that the truthiness test
`if last_activity:` in `_update_streak` can be mirrored exactly. -/
structure StudentProfile where
  student_id : String
  total_coins : Int
  current_coins : Int
  level : Nat
  experience_points : Nat
  streak_days : Nat
  longest_streak : Nat
  total_quizzes : Nat
  total_videos : Nat
  study_minutes : Nat
  achievements : List String
  owned_perks : List String
  last_activity : Option Int
  join_date : Int
deriving Repr, DecidableEq

/-- The fresh profile built by `_get_or_create_student` (lines 161-176):
100 starting coins (current and lifetime), level 1, everything else zeroed. -/
def freshProfile (student_id : String) (now : Int) : StudentProfile :=
  { student_id := student_id
    total_coins := 100
    current_coins := 100
    level := 1
    experience_points := 0
    streak_days := 0
    longest_streak := 0
    total_quizzes := 0
    total_videos := 0
    study_minutes := 0
    achievements := []
    owned_perks := []
    last_activity := some now
    join_date := now }

/-- `_get_or_create_student` (lines 158-179): return the stored profile, or
create, store and return a fresh one. -/
def _get_or_create_student (student_id : String) (now : Int)
    (profiles : List (String × StudentProfile)) :
    StudentProfile × List (String × StudentProfile) :=
  match profiles.lookup student_id with
  | some p => (p, profiles)
  | none =>
    let p := freshProfile student_id now
    (p, profiles ++ [(student_id, p)])

/-- `_calculate_level_requirements` (lines 384-392): level 1 needs 0 XP,
level `L` (2 ≤ L ≤ 100) needs `(L-1)^2 * 50` XP. -/
def levelRequirement (level : Nat) : Nat :=
  if level = 1 then 0 else (level - 1) ^ 2 * 50

/-- The descending loop of `_calculate_level`: try levels `l, l-1, ..., 1`
and return the first whose requirement is met; the Python fallthrough
returns 1. -/
def calculateLevelAux : Nat → Nat → Nat
  | 0, _ => 1
  | l + 1, xp => if levelRequirement (l + 1) ≤ xp then l + 1 else calculateLevelAux l xp

/-- `_calculate_level` (lines 550-555): largest level in `100, ..., 1` whose
XP requirement is satisfied. -/
def _calculate_level (experience : Nat) : Nat :=
  calculateLevelAux 100 experience

/-- `_award_experience` (lines 536-548): add XP, recompute the level, and on
a level increase credit a `new_level * 20` coin bonus — to `current_coins`
only (line 547). -/
def _award_experience (amount : Nat) (s : StudentProfile) : StudentProfile :=
  let old_level := s.level
  let xp := s.experience_points + amount
  let new_level := _calculate_level xp
  if old_level < new_level then
    { s with experience_points := xp, level := new_level,
             current_coins := s.current_coins + (new_level * 20 : Nat) }
  else
    { s with experience_points := xp }

/-- The single-key requirement dicts of the achievement catalog
(lines 184-283), as a tagged variant. -/
inductive Requirement where
  | quizzes_completed (n : Nat)
  | perfect_quiz (n : Nat)
  | streak_days (n : Nat)
  | total_coins (n : Nat)
  | videos_watched (n : Nat)
  | subject_mastery (subject : String) (n : Nat)
  | attention_mastery (n : Nat)
  | early_study_days (n : Nat)
deriving Repr, DecidableEq

/-- `Achievement` dataclass (lines 28-39); the mutable `unlocked` /
`unlock_date` fields live on the shared catalog object and are never read
back by the modelled logic (unlocking is tracked by membership of the id in
the student profile), so they are not part of the state. -/
structure Achievement where
  id : String
  name : String
  description : String
  icon : String
  requirement : Requirement
  reward_coins : Nat
  rarity : String
deriving Repr, DecidableEq

/-- `_check_achievement_requirement` (lines 629-668).  Note the code's own
approximations: `perfect_quiz` is approximated by `total_coins ≥ 200`,
`subject_mastery` by `total_quizzes ≥ 20`, `early_study_days` by
`total_quizzes ≥ 10`. -/
def _check_achievement_requirement (a : Achievement) (s : StudentProfile) : Bool :=
  match a.requirement with
  | .quizzes_completed n => n ≤ s.total_quizzes
  | .perfect_quiz _ => 200 ≤ s.total_coins
  | .streak_days n => n ≤ s.streak_days
  | .total_coins n => (n : Int) ≤ s.total_coins
  | .videos_watched n => n ≤ s.total_videos
  | .subject_mastery _ _ => 20 ≤ s.total_quizzes
  | .attention_mastery n => n ≤ s.study_minutes
  | .early_study_days _ => 10 ≤ s.total_quizzes

/-- The loop body of `_check_achievements` (lines 607-627) over an explicit
catalog list: skip already-unlocked ids, and on a met requirement append the
id and credit the reward to current and lifetime coins. -/
def checkAchievementsAux : List Achievement → StudentProfile → StudentProfile × List Achievement
  | [], s => (s, [])
  | a :: rest, s =>
    if a.id ∈ s.achievements then checkAchievementsAux rest s
    else if _check_achievement_requirement a s then
      let s2 := { s with
        achievements := s.achievements ++ [a.id],
        current_coins := s.current_coins + a.reward_coins,
        total_coins := s.total_coins + a.reward_coins }
      let r := checkAchievementsAux rest s2
      (r.1, a :: r.2)
    else checkAchievementsAux rest s

/-- The static achievement catalog of `_initialize_achievements`
(lines 181-285), in dict insertion order. -/
def achievementCatalog : List Achievement := [
  { id := "first_quiz",
    name := "Quiz Rookie 🎯",
    description := "Complete your first quiz",
    icon := "🎯",
    requirement := .quizzes_completed 1,
    reward_coins := 25,
    rarity := "common" },
  { id := "quiz_master",
    name := "Quiz Master 🏆",
    description := "Complete 50 quizzes",
    icon := "🏆",
    requirement := .quizzes_completed 50,
    reward_coins := 200,
    rarity := "epic" },
  { id := "perfect_score",
    name := "Perfect Scholar ⭐",
    description := "Score 100% on a quiz",
    icon := "⭐",
    requirement := .perfect_quiz 1,
    reward_coins := 50,
    rarity := "rare" },
  { id := "streak_week",
    name := "Week Warrior 🔥",
    description := "Study for 7 days in a row",
    icon := "🔥",
    requirement := .streak_days 7,
    reward_coins := 75,
    rarity := "rare" },
  { id := "streak_month",
    name := "Monthly Champion 👑",
    description := "Study for 30 days in a row",
    icon := "👑",
    requirement := .streak_days 30,
    reward_coins := 300,
    rarity := "legendary" },
  { id := "math_expert",
    name := "Math Wizard 🧮",
    description := "Score above 80% in 10 Math quizzes",
    icon := "🧮",
    requirement := .subject_mastery "Math" 10,
    reward_coins := 150,
    rarity := "epic" },
  { id := "science_expert",
    name := "Science Explorer 🔬",
    description := "Score above 80% in 10 Science quizzes",
    icon := "🔬",
    requirement := .subject_mastery "Science" 10,
    reward_coins := 150,
    rarity := "epic" },
  { id := "attention_champion",
    name := "Focus Master 👁️",
    description := "Maintain >90% attention for 30 minutes",
    icon := "👁️",
    requirement := .attention_mastery 30,
    reward_coins := 100,
    rarity := "rare" },
  { id := "early_bird",
    name := "Early Bird 🌅",
    description := "Study before 8 AM for 5 days",
    icon := "🌅",
    requirement := .early_study_days 5,
    reward_coins := 75,
    rarity := "rare" },
  { id := "coin_collector",
    name := "Coin Collector 💰",
    description := "Earn 1000 total coins",
    icon := "💰",
    requirement := .total_coins 1000,
    reward_coins := 100,
    rarity := "rare" },
  { id := "video_enthusiast",
    name := "Video Enthusiast 📺",
    description := "Watch 25 educational videos",
    icon := "📺",
    requirement := .videos_watched 25,
    reward_coins := 75,
    rarity := "common" }
]

/-- `_check_achievements` (lines 607-627): one pass over the catalog,
returning the updated profile and the list of newly unlocked achievements. -/
def _check_achievements (s : StudentProfile) : StudentProfile × List Achievement :=
  checkAchievementsAux achievementCatalog s

/-- `award_coins` (lines 427-507), restricted to its effect on the modelled
state (lines 473-482): credit `final_amount` to current and lifetime coins,
stamp `last_activity`, award the same amount of XP (with possible level-up
bonus), then run the achievement check.

The `final_amount` parameter stands for the integer `final_amount` computed
by the multiplier pipeline of lines 440-471 (streak bonus, owned-perk
multipliers, lucky-charm RNG, caller multipliers).  That pipeline works in
Python floats and consults an ambient RNG, and for the nonnegative base
amounts passed by every call site in the program it produces a nonnegative
integer, so the realized award is taken here as an arbitrary `Nat`. -/
def award_coins (final_amount : Nat) (now : Int) (s : StudentProfile) : StudentProfile :=
  let s1 := { s with
    current_coins := s.current_coins + final_amount,
    total_coins := s.total_coins + final_amount,
    last_activity := some now }
  let s2 := _award_experience final_amount s1
  (_check_achievements s2).1

/-- `spend_coins` (lines 509-534): deduct from `current_coins` only when the
balance suffices (stamping `last_activity`), otherwise change nothing and
report failure. -/
def spend_coins (amount : Int) (now : Int) (s : StudentProfile) : Bool × StudentProfile :=
  if amount ≤ s.current_coins then
    (true, { s with current_coins := s.current_coins - amount, last_activity := some now })
  else
    (false, s)

/-- A sequence of ledger coin operations, for stating the balance invariant
over arbitrary interleavings of `award_coins` and `spend_coins`. -/
inductive CoinOp where
  | award (final_amount : Nat) (now : Int)
  | spend (amount : Int) (now : Int)
deriving Repr

def runCoinOps : List CoinOp → StudentProfile → StudentProfile
  | [], s => s
  | CoinOp.award a now :: rest, s => runCoinOps rest (award_coins a now s)
  | CoinOp.spend a now :: rest, s => runCoinOps rest (spend_coins a now s).2

/-- `_update_streak` (lines 702-723): compare the calendar date of `now`
with the date of `last_activity` (a Python `datetime` is always truthy, so
the `else` arm of line 721 corresponds to the `none` case, which the
dataclass never actually holds). -/
def _update_streak (now_date : Int) (s : StudentProfile) : StudentProfile :=
  match s.last_activity with
  | some last =>
    let days_diff := now_date - last
    if days_diff = 0 then s
    else if days_diff = 1 then
      let streak := s.streak_days + 1
      if s.longest_streak < streak then
        { s with streak_days := streak, longest_streak := streak }
      else
        { s with streak_days := streak }
    else
      { s with streak_days := 1 }
  | none => { s with streak_days := 1 }

/-- `_check_daily_challenges` (lines 725-737): a quiz activity with
`score ≥ 80` earns a 10-coin bonus, a video activity a 5-coin bonus, awarded
through `award_coins`.  `challengeDelta` is the realized integer award of
that `award_coins` call (see `award_coins` for why the multiplier pipeline
is abstracted into its result). -/
def _check_daily_challenges (activity_type : String) (score : Nat)
    (challengeDelta : Nat) (now : Int) (s : StudentProfile) : StudentProfile :=
  if activity_type = "quiz" ∧ 80 ≤ score then award_coins challengeDelta now s
  else if activity_type = "video" then award_coins challengeDelta now s
  else s

/-- `update_activity` (lines 670-700): it first overwrites `last_activity`
with `now` (line 680), then bumps the per-type counter, then calls
`_update_streak` (line 692) and `_check_daily_challenges` (line 695).
`minutes` and `score` are the `kwargs` read with default 0.  The separate
`datetime.now()` call inside `_update_streak` (line 704) lands on the same
calendar day as line 679 (the two calls are microseconds apart; a midnight
boundary between them is outside the day-granularity model), so both use
`now_date`. -/
def update_activity (activity_type : String) (minutes score : Nat)
    (challengeDelta : Nat) (now_date : Int) (s : StudentProfile) : StudentProfile :=
  let s1 := { s with last_activity := some now_date }
  let s2 :=
    if activity_type = "quiz" then { s1 with total_quizzes := s1.total_quizzes + 1 }
    else if activity_type = "video" then { s1 with total_videos := s1.total_videos + 1 }
    else if activity_type = "study" then { s1 with study_minutes := s1.study_minutes + minutes }
    else s1
  let s3 := _update_streak now_date s2
  _check_daily_challenges activity_type score challengeDelta now_date s3

/-- `Question` dataclass (quiz_generator.py, lines 19-29). -/
structure Question where
  id : String
  question : String
  options : List String
  correct_answer : Nat
  explanation : String
  difficulty : String
  topic : String
  question_type : String
deriving Repr, DecidableEq

/-!
The static question banks of `_get_math_questions_5th` ... (lines 115-476),
transcribed verbatim (several strings in the repository file are
double-encoded UTF-8; the transcription preserves the characters actually
stored in the file).
-/

def mathQuestions5th : List Question := [
  { id := "math_5_1",
    question := "What is 15 + 27?",
    options := ["42", "41", "43", "40"],
    correct_answer := 0,
    explanation := "15 + 27 = 42. Add the ones place: 5 + 7 = 12, write 2 carry 1. Add tens: 1 + 2 + 1 = 4.",
    difficulty := "easy",
    topic := "Addition",
    question_type := "mcq" },
  { id := "math_5_2",
    question := "If a pizza has 8 slices and you eat 3, how many are left?",
    options := ["4", "5", "6", "7"],
    correct_answer := 1,
    explanation := "8 - 3 = 5. When you subtract 3 from 8, you get 5 slices remaining.",
    difficulty := "easy",
    topic := "Subtraction",
    question_type := "mcq" },
  { id := "math_5_3",
    question := "What is 7 Ã— 6?",
    options := ["42", "36", "48", "35"],
    correct_answer := 0,
    explanation := "7 Ã— 6 = 42. You can think of it as 7 groups of 6 or 6 groups of 7.",
    difficulty := "medium",
    topic := "Multiplication",
    question_type := "mcq" },
  { id := "math_5_4",
    question := "Which fraction is larger: 1/2 or 1/4?",
    options := ["1/2", "1/4", "They are equal", "Cannot determine"],
    correct_answer := 0,
    explanation := "1/2 is larger than 1/4. Half of something is bigger than a quarter of the same thing.",
    difficulty := "medium",
    topic := "Fractions",
    question_type := "mcq" },
  { id := "math_5_5",
    question := "How many sides does a triangle have?",
    options := ["2", "3", "4", "5"],
    correct_answer := 1,
    explanation := "A triangle has 3 sides. That\x27s why it\x27s called a triangle - \x27tri\x27 means three.",
    difficulty := "easy",
    topic := "Geometry",
    question_type := "mcq" }
]

def mathQuestions6th : List Question := [
  { id := "math_6_1",
    question := "What is 144 Ã· 12?",
    options := ["12", "11", "13", "10"],
    correct_answer := 0,
    explanation := "144 Ã· 12 = 12. You can check: 12 Ã— 12 = 144.",
    difficulty := "medium",
    topic := "Division",
    question_type := "mcq" },
  { id := "math_6_2",
    question := "Convert 0.75 to a fraction:",
    options := ["3/4", "7/10", "75/100", "3/5"],
    correct_answer := 0,
    explanation := "0.75 = 75/100 = 3/4 when simplified by dividing both by 25.",
    difficulty := "medium",
    topic := "Decimals and Fractions",
    question_type := "mcq" },
  { id := "math_6_3",
    question := "What is the area of a rectangle with length 8 cm and width 5 cm?",
    options := ["40 sq cm", "13 sq cm", "26 sq cm", "35 sq cm"],
    correct_answer := 0,
    explanation := "Area = length Ã— width = 8 Ã— 5 = 40 square centimeters.",
    difficulty := "medium",
    topic := "Area and Perimeter",
    question_type := "mcq" }
]

def mathQuestions7th : List Question := [
  { id := "math_7_1",
    question := "Solve: 2x + 5 = 13",
    options := ["x = 4", "x = 3", "x = 5", "x = 6"],
    correct_answer := 0,
    explanation := "2x + 5 = 13 â†’ 2x = 13 - 5 â†’ 2x = 8 â†’ x = 4",
    difficulty := "hard",
    topic := "Algebra",
    question_type := "mcq" },
  { id := "math_7_2",
    question := "What is 25% of 80?",
    options := ["20", "15", "25", "30"],
    correct_answer := 0,
    explanation := "25% = 1/4, so 1/4 of 80 = 80 Ã· 4 = 20",
    difficulty := "medium",
    topic := "Percentages",
    question_type := "mcq" }
]

def mathQuestions8th : List Question := [
  { id := "math_8_1",
    question := "What is the square root of 144?",
    options := ["12", "11", "13", "14"],
    correct_answer := 0,
    explanation := "âˆš144 = 12 because 12 Ã— 12 = 144",
    difficulty := "medium",
    topic := "Square Roots",
    question_type := "mcq" },
  { id := "math_8_2",
    question := "In a right triangle, if one angle is 90Â° and another is 30Â°, what\x27s the third angle?",
    options := ["60Â°", "70Â°", "50Â°", "45Â°"],
    correct_answer := 0,
    explanation := "Angles in a triangle sum to 180Â°. So 180Â° - 90Â° - 30Â° = 60Â°",
    difficulty := "hard",
    topic := "Triangles",
    question_type := "mcq" }
]

def scienceQuestions5th : List Question := [
  { id := "science_5_1",
    question := "What do plants need to make food?",
    options := ["Sunlight only", "Water only", "Sunlight, water, and air", "Soil only"],
    correct_answer := 2,
    explanation := "Plants need sunlight, water, and carbon dioxide from air to make food through photosynthesis.",
    difficulty := "easy",
    topic := "Plant Life",
    question_type := "mcq" },
  { id := "science_5_2",
    question := "Which planet is closest to the Sun?",
    options := ["Venus", "Mercury", "Earth", "Mars"],
    correct_answer := 1,
    explanation := "Mercury is the closest planet to the Sun in our solar system.",
    difficulty := "medium",
    topic := "Solar System",
    question_type := "mcq" },
  { id := "science_5_3",
    question := "What gas do we breathe in that our body needs?",
    options := ["Carbon dioxide", "Oxygen", "Nitrogen", "Helium"],
    correct_answer := 1,
    explanation := "We breathe in oxygen, which our body needs for cellular respiration.",
    difficulty := "easy",
    topic := "Human Body",
    question_type := "mcq" }
]

def scienceQuestions6th : List Question := [
  { id := "science_6_1",
    question := "What is the process by which water changes from liquid to gas?",
    options := ["Condensation", "Evaporation", "Precipitation", "Freezing"],
    correct_answer := 1,
    explanation := "Evaporation is when water changes from liquid to gas due to heat.",
    difficulty := "medium",
    topic := "Water Cycle",
    question_type := "mcq" },
  { id := "science_6_2",
    question := "Which type of simple machine is a see-saw?",
    options := ["Pulley", "Lever", "Inclined plane", "Wheel and axle"],
    correct_answer := 1,
    explanation := "A see-saw is a type of lever with a fulcrum in the middle.",
    difficulty := "medium",
    topic := "Simple Machines",
    question_type := "mcq" }
]

def scienceQuestions7th : List Question := [
  { id := "science_7_1",
    question := "What is the basic unit of life?",
    options := ["Tissue", "Cell", "Organ", "Organism"],
    correct_answer := 1,
    explanation := "The cell is the basic unit of life. All living things are made of cells.",
    difficulty := "medium",
    topic := "Cell Biology",
    question_type := "mcq" },
  { id := "science_7_2",
    question := "What happens to the speed of sound in warmer air?",
    options := ["It decreases", "It increases", "It stays the same", "It stops"],
    correct_answer := 1,
    explanation := "Sound travels faster in warmer air because molecules move more quickly.",
    difficulty := "hard",
    topic := "Sound",
    question_type := "mcq" }
]

def scienceQuestions8th : List Question := [
  { id := "science_8_1",
    question := "What is the chemical symbol for water?",
    options := ["H2O", "CO2", "NaCl", "O2"],
    correct_answer := 0,
    explanation := "H2O represents water - 2 hydrogen atoms and 1 oxygen atom.",
    difficulty := "easy",
    topic := "Chemistry",
    question_type := "mcq" },
  { id := "science_8_2",
    question := "What force keeps planets in orbit around the Sun?",
    options := ["Magnetic force", "Gravity", "Electric force", "Nuclear force"],
    correct_answer := 1,
    explanation := "Gravity is the force that keeps planets in orbit around the Sun.",
    difficulty := "medium",
    topic := "Forces and Motion",
    question_type := "mcq" }
]

def socialQuestions5th : List Question := [
  { id := "social_5_1",
    question := "Who was the first President of India?",
    options := ["Mahatma Gandhi", "Dr. Rajendra Prasad", "Jawaharlal Nehru", "Dr. APJ Abdul Kalam"],
    correct_answer := 1,
    explanation := "Dr. Rajendra Prasad was the first President of India from 1950 to 1962.",
    difficulty := "medium",
    topic := "Indian History",
    question_type := "mcq" }
]

def socialQuestions6th : List Question := [
  { id := "social_6_1",
    question := "Which river is known as the \x27Ganga of the South\x27?",
    options := ["Krishna", "Godavari", "Cauvery", "Narmada"],
    correct_answer := 1,
    explanation := "The Godavari river is often called the \x27Ganga of the South\x27 due to its importance.",
    difficulty := "medium",
    topic := "Geography",
    question_type := "mcq" }
]

def socialQuestions7th : List Question := [
  { id := "social_7_1",
    question := "In which year did India gain independence?",
    options := ["1946", "1947", "1948", "1949"],
    correct_answer := 1,
    explanation := "India gained independence from British rule on August 15, 1947.",
    difficulty := "easy",
    topic := "Freedom Struggle",
    question_type := "mcq" }
]

def socialQuestions8th : List Question := [
  { id := "social_8_1",
    question := "What is the capital of Karnataka?",
    options := ["Mumbai", "Chennai", "Bangalore", "Hyderabad"],
    correct_answer := 2,
    explanation := "Bangalore (now Bengaluru) is the capital city of Karnataka state.",
    difficulty := "easy",
    topic := "Indian States",
    question_type := "mcq" }
]

def englishQuestions5th : List Question := [
  { id := "english_5_1",
    question := "What is the plural of \x27child\x27?",
    options := ["childs", "children", "childes", "child"],
    correct_answer := 1,
    explanation := "The plural of \x27child\x27 is \x27children\x27. It\x27s an irregular plural form.",
    difficulty := "easy",
    topic := "Grammar",
    question_type := "mcq" }
]

def englishQuestions6th : List Question := [
  { id := "english_6_1",
    question := "Which is a verb in this sentence: \x27The dog runs fast\x27?",
    options := ["dog", "runs", "fast", "the"],
    correct_answer := 1,
    explanation := "\x27Runs\x27 is the verb as it shows the action the dog is performing.",
    difficulty := "medium",
    topic := "Parts of Speech",
    question_type := "mcq" }
]

def englishQuestions7th : List Question := [
  { id := "english_7_1",
    question := "What type of word is \x27quickly\x27?",
    options := ["noun", "verb", "adjective", "adverb"],
    correct_answer := 3,
    explanation := "\x27Quickly\x27 is an adverb because it describes how an action is performed.",
    difficulty := "medium",
    topic := "Adverbs",
    question_type := "mcq" }
]

def englishQuestions8th : List Question := [
  { id := "english_8_1",
    question := "Which word rhymes with \x27cat\x27?",
    options := ["dog", "bat", "bird", "fish"],
    correct_answer := 1,
    explanation := "\x27Bat\x27 rhymes with \x27cat\x27 because they both end with the \x27-at\x27 sound.",
    difficulty := "easy",
    topic := "Phonics",
    question_type := "mcq" }
]

def question_banks : List (String × List (String × List Question)) := [
  ("Math", [("5th", mathQuestions5th), ("6th", mathQuestions6th), ("7th", mathQuestions7th), ("8th", mathQuestions8th)]),
  ("Science", [("5th", scienceQuestions5th), ("6th", scienceQuestions6th), ("7th", scienceQuestions7th), ("8th", scienceQuestions8th)]),
  ("Social Studies", [("5th", socialQuestions5th), ("6th", socialQuestions6th), ("7th", socialQuestions7th), ("8th", socialQuestions8th)]),
  ("English", [("5th", englishQuestions5th), ("6th", englishQuestions6th), ("7th", englishQuestions7th), ("8th", englishQuestions8th)])
]

/-- `QuizSession` dataclass (lines 31-45). -/
structure QuizSession where
  session_id : String
  grade : String
  board : String
  subject : String
  questions : List Question
  user_answers : List Int
  score : Nat
  total_questions : Nat
  time_taken : ℚ
  timestamp : Int
  difficulty_level : String
  topics_covered : List String
deriving Repr, DecidableEq

/-- One value of the `self.student_progress` dict (see
`_update_student_progress`, lines 739-747, for the keys it creates).
`recent_average` mirrors the `"recent_average"` key that
`_get_adaptive_difficulty` reads with `.get("recent_average", 50)`; it is an
`Option` because no writer in the program ever stores that key. -/
structure ProgressEntry where
  total_quizzes : Nat
  scores : List ℚ
  recent_scores : List ℚ
  topic_performance : List (String × (Nat × Nat))
  current_difficulty : String
  last_quiz_date : Option String
  recent_average : Option ℚ
deriving Repr, DecidableEq

/-- `_get_adaptive_difficulty` (lines 559-574): `"easy"` for a student with
no history, otherwise fixed cutoffs 80/60 on
`progress.get("recent_average", 50)`. -/
def _get_adaptive_difficulty (student_progress : List (String × ProgressEntry))
    (subject grade : String) : String :=
  let progress_key := subject ++ "_" ++ grade
  match student_progress.lookup progress_key with
  | none => "easy"
  | some progress =>
    let recent_score := progress.recent_average.getD 50
    if 80 ≤ recent_score then
      if progress.current_difficulty = "easy" then "medium" else "hard"
    else if 60 ≤ recent_score then "medium"
    else "easy"

/-- `_get_questions_pool` (lines 576-591): bank lookup by subject and grade,
then filter by difficulty (unless `"auto"`) and by topics (unless empty;
Python treats `None` and `[]` alike here). -/
def _get_questions_pool (grade subject difficulty : String) (topics : List String) :
    List Question :=
  match question_banks.lookup subject with
  | none => []
  | some grades =>
    match grades.lookup grade with
    | none => []
    | some questions =>
      let questions :=
        if difficulty ≠ "auto" then questions.filter (fun q => q.difficulty = difficulty)
        else questions
      if topics ≠ [] then questions.filter (fun q => q.topic ∈ topics) else questions

/-- `_get_fallback_questions` (lines 622-631): every question of the subject
across all grades, in bank order; empty when the subject is unknown.  The
`grade` parameter is unused, as in the source. -/
def _get_fallback_questions (subject grade : String) : List Question :=
  match question_banks.lookup subject with
  | some grades => (grades.map Prod.snd).flatten
  | none => []

/-- The `topic_groups` dict built by `_select_questions` (lines 599-603):
insertion-ordered grouping of the pool by topic. -/
def groupByTopicAux (acc : List (String × List Question)) :
    List Question → List (String × List Question)
  | [] => acc
  | q :: rest =>
    if (acc.lookup q.topic).isSome then
      groupByTopicAux
        (acc.map fun kv => if kv.1 = q.topic then (kv.1, kv.2 ++ [q]) else kv) rest
    else
      groupByTopicAux (acc ++ [(q.topic, [q])]) rest

/-- `_select_questions` (lines 593-620).  `sample` is the oracle standing
for `random.sample` (it is applied only with a size ≤ the population size).
The `difficulty` parameter is unused, as in the source. -/
def _select_questions (sample : List Question → Nat → List Question)
    (questions_pool : List Question) (num_questions : Nat) (difficulty : String) :
    List Question :=
  if questions_pool.length ≤ num_questions then questions_pool
  else
    let topic_groups := groupByTopicAux [] questions_pool
    let questions_per_topic := max 1 (num_questions / topic_groups.length)
    let selected :=
      (topic_groups.map fun tg => sample tg.2 (min questions_per_topic tg.2.length)).flatten
    let remaining : Int := (num_questions : Int) - selected.length
    let selected :=
      if 0 < remaining then
        let remaining_pool := questions_pool.filter (fun q => q ∉ selected)
        if remaining_pool ≠ [] then
          selected ++ sample remaining_pool (min remaining.toNat remaining_pool.length)
        else selected
      else selected
    selected.take num_questions

/-- The placeholder question of `_create_fallback_quiz` (lines 635-644). -/
def fallback_question (subject : String) : Question :=
  { id := "fallback_1",
    question := "This is a sample question for " ++ subject ++
      ". What is your favorite topic in " ++ subject ++ "?",
    options := ["Option A", "Option B", "Option C", "Option D"],
    correct_answer := 0,
    explanation := "This is a sample explanation.",
    difficulty := "easy",
    topic := "General",
    question_type := "mcq" }

/-- `_create_fallback_quiz` (lines 633-659): the single-placeholder session
built only inside the `except` handler of `generate_quiz`. -/
def _create_fallback_quiz (session_id : String) (now : Int)
    (grade board subject : String) : QuizSession :=
  { session_id := session_id
    grade := grade
    board := board
    subject := subject
    questions := [fallback_question subject]
    user_answers := []
    score := 0
    total_questions := 1
    time_taken := 0
    timestamp := now
    difficulty_level := "easy"
    topics_covered := ["General"] }

/-- `generate_quiz` (lines 499-557).  `session_id` stands for the
timestamp-and-random-suffix id string of line 535 and `now` for
`datetime.now()`; `num_questions = none` is Python `None` (defaulted to 10);
`topics = []` is Python `None`/empty.  The modelled body is total, so the
`except` branch returning `_create_fallback_quiz` is unreachable; in
particular an empty pool returns early from `_select_questions` and raises
nothing.  `topics_covered` is a Python `set`; its iteration order is
implementation-defined, modelled here as first-occurrence order. -/
def generate_quiz (sample : List Question → Nat → List Question)
    (session_id : String) (now : Int)
    (student_progress : List (String × ProgressEntry))
    (grade board subject difficulty : String)
    (num_questions : Option Nat) (topics : List String) : QuizSession :=
  let num_questions := num_questions.getD 10
  let difficulty :=
    if difficulty = "auto" then _get_adaptive_difficulty student_progress subject grade
    else difficulty
  let questions_pool := _get_questions_pool grade subject difficulty topics
  let questions_pool :=
    if questions_pool = [] then _get_fallback_questions subject grade else questions_pool
  let selected_questions := _select_questions sample questions_pool num_questions difficulty
  { session_id := session_id
    grade := grade
    board := board
    subject := subject
    questions := selected_questions
    user_answers := []
    score := 0
    total_questions := selected_questions.length
    time_taken := 0
    timestamp := now
    difficulty_level := difficulty
    topics_covered := (selected_questions.map fun q => q.topic).dedup }

/-- One element of the `question_results` list built by `score_quiz`
(lines 688-695). -/
structure QuestionResult where
  question : String
  user_answer : String
  correct_answer : String
  is_correct : Bool
  explanation : String
  topic : String
deriving Repr, DecidableEq

/-- The result dictionary of `score_quiz` (lines 709-720).  The textual
`feedback` string (`_generate_feedback`) and the `topics_performance`
breakdown are presentation-only and not modelled.  `is_error` marks the
degraded dictionary of the `except` branch (lines 727-733), which carries
only score/total/percentage/coins; its remaining fields are set to neutral
defaults here. -/
structure ScoreResult where
  score : Nat
  total : Nat
  percentage : ℚ
  time_taken : ℚ
  difficulty : String
  coins_earned : Int
  question_results : List QuestionResult
  next_difficulty : String
  is_error : Bool
deriving Repr, DecidableEq

/-- Python `int()` on a float/rational: truncation toward zero
(`Rat.floor`/`Rat.ceil` are the floor and ceiling on `ℚ`). -/
def pyInt (q : ℚ) : Int :=
  if 0 ≤ q then q.floor else q.ceil

/-- The `base_coins` dict of `_calculate_coins` (lines 772-778), read with
`.get(difficulty, 10)`. -/
def base_coins (difficulty : String) : Int :=
  (([("easy", 10), ("medium", 20), ("hard", 30)] : List (String × Int)).lookup
    difficulty).getD 10

/-- `_calculate_coins` (lines 770-789): percentage-tier multiplier schedule
over the difficulty base, with the `max(5, base // 2)` consolation floor
(`//` is Python floor division, `int(base * 1.5)` truncates toward zero). -/
def _calculate_coins (percentage : ℚ) (difficulty : String) : Int :=
  if 90 ≤ percentage then base_coins difficulty * 3
  else if 80 ≤ percentage then base_coins difficulty * 2
  else if 60 ≤ percentage then pyInt ((base_coins difficulty : ℚ) * (3 / 2))
  else if 40 ≤ percentage then base_coins difficulty
  else max 5 ((base_coins difficulty).fdiv 2)

/-- The `self.score_thresholds` table (lines 79-83) as `(promote, demote)`
pairs, read by `_recommend_next_difficulty` with a `{80, 50}` default. -/
def score_thresholds : List (String × (ℚ × ℚ)) :=
  [("easy", (80, 40)), ("medium", (85, 50)), ("hard", (90, 60))]

/-- `_recommend_next_difficulty` (lines 838-857): promote one tier at or
above the promote threshold (capped at hard), demote one tier strictly below
the demote threshold (floored at easy), otherwise stay. -/
def _recommend_next_difficulty (percentage : ℚ) (current_difficulty : String) : String :=
  let thresholds := (score_thresholds.lookup current_difficulty).getD (80, 50)
  if thresholds.1 ≤ percentage then
    if current_difficulty = "easy" then "medium"
    else if current_difficulty = "medium" then "hard"
    else "hard"
  else if percentage < thresholds.2 then
    if current_difficulty = "hard" then "medium"
    else if current_difficulty = "medium" then "easy"
    else "easy"
  else current_difficulty

/-- The grading loop of `score_quiz` (lines 681-695), over the questions
with running index `i`.  `user_answers[i]` is read only when `i` is in
bounds (else the `-1` sentinel), and the user-answer option string is
fetched under an explicit bounds guard; the unguarded
`question.options[question.correct_answer]` access is the one exception
point (`IndexError` when the index is out of bounds), modelled as
`Except.error`. -/
def gradeAux (user_answers : List Int) :
    List Question → Nat → Except Unit (Nat × List QuestionResult)
  | [], _ => .ok (0, [])
  | q :: rest, i =>
    let user_answer : Int := user_answers.getD i (-1)
    let is_correct : Bool := user_answer = (q.correct_answer : Int)
    match q.options.get? q.correct_answer with
    | none => .error ()
    | some correct_str =>
      let user_answer_str :=
        if 0 ≤ user_answer ∧ user_answer < (q.options.length : Int) then
          (q.options.get? user_answer.toNat).getD "No answer"
        else "No answer"
      match gradeAux user_answers rest (i + 1) with
      | .error e => .error e
      | .ok (c, rs) =>
        .ok ((if is_correct then 1 else 0) + c,
             { question := q.question
               user_answer := user_answer_str
               correct_answer := correct_str
               is_correct := is_correct
               explanation := q.explanation
               topic := q.topic } :: rs)

def gradeQuestions (questions : List Question) (user_answers : List Int) :
    Except Unit (Nat × List QuestionResult) :=
  gradeAux user_answers questions 0

/-- The per-topic `{correct, total}` counter update of
`_update_student_progress` (lines 756-766), folded over the
`zip(questions, user_answers)` pairs. -/
def updateTopicPerformance :
    List (Question × Int) → List (String × (Nat × Nat)) → List (String × (Nat × Nat))
  | [], perf => perf
  | (q, ua) :: rest, perf =>
    let cur := (perf.lookup q.topic).getD (0, 0)
    let cur := (cur.1 + (if ua = (q.correct_answer : Int) then 1 else 0), cur.2 + 1)
    updateTopicPerformance rest (setAssoc q.topic cur perf)

/-- The fresh progress dict entry created by `_update_student_progress`
(lines 740-747).  The dict carries no `recent_average` key. -/
def freshProgressEntry : ProgressEntry :=
  { total_quizzes := 0
    scores := []
    recent_scores := []
    topic_performance := []
    current_difficulty := "easy"
    last_quiz_date := none
    recent_average := none }

/-- `_update_student_progress` (lines 735-768): bump the quiz count, append
the percentage, keep the last-10 window (`scores[-10:]`), stamp the date and
the session difficulty, and update the per-topic counters. -/
def _update_student_progress (now_iso : String) (session : QuizSession)
    (percentage : ℚ) (student_progress : List (String × ProgressEntry)) :
    List (String × ProgressEntry) :=
  let progress_key := session.subject ++ "_" ++ session.grade
  let entry := (student_progress.lookup progress_key).getD freshProgressEntry
  let scores := entry.scores ++ [percentage]
  let entry :=
    { entry with
      total_quizzes := entry.total_quizzes + 1
      scores := scores
      recent_scores := scores.drop (scores.length - 10)
      last_quiz_date := some now_iso
      current_difficulty := session.difficulty_level
      topic_performance :=
        updateTopicPerformance (session.questions.zip session.user_answers)
          entry.topic_performance }
  setAssoc progress_key entry student_progress

/-- The degraded result dictionary of the `except` branch of `score_quiz`
(lines 727-733): score 0, percentage 0, 10 consolation coins. -/
def errorScoreResult (session : QuizSession) : ScoreResult :=
  { score := 0
    total := session.total_questions
    percentage := 0
    time_taken := 0
    difficulty := ""
    coins_earned := 10
    question_results := []
    next_difficulty := ""
    is_error := true }

/-- `score_quiz` (lines 661-733).  The `try` body can fail at two points:
an out-of-bounds `correct_answer` while building `question_results`, and the
division `correct / total_questions * 100` when `total_questions == 0`
(`ZeroDivisionError`); both happen before `_update_student_progress` runs
and both are caught, yielding `errorScoreResult` with the progress store
untouched.  `now_iso` is the `datetime.now().isoformat()` stamp. -/
def score_quiz (session : QuizSession) (user_answers : List Int) (time_taken : ℚ)
    (now_iso : String) (student_progress : List (String × ProgressEntry)) :
    ScoreResult × List (String × ProgressEntry) :=
  let session := { session with user_answers := user_answers, time_taken := time_taken }
  match gradeQuestions session.questions user_answers with
  | .error _ => (errorScoreResult session, student_progress)
  | .ok (correct_answers, question_results) =>
    if session.total_questions = 0 then (errorScoreResult session, student_progress)
    else
      let percentage : ℚ := ((correct_answers : ℚ) / (session.total_questions : ℚ)) * 100
      let student_progress := _update_student_progress now_iso session percentage student_progress
      ({ score := correct_answers
         total := session.total_questions
         percentage := percentage
         time_taken := time_taken
         difficulty := session.difficulty_level
         coins_earned := _calculate_coins percentage session.difficulty_level
         question_results := question_results
         next_difficulty := _recommend_next_difficulty percentage session.difficulty_level
         is_error := false }, student_progress)

/-- Modelled from the spec (for comparison against
`_get_adaptive_difficulty`, claim C7): the pre-quiz adaptive policy as the
specification words it — no history → easy; otherwise compute the recent
average over the bounded recent-scores window and apply the
difficulty-specific `score_thresholds` table, promoting one tier at or above
the promote threshold (staying at hard), demoting one tier strictly below
the demote threshold (staying at easy), otherwise staying. -/
def claimedAdaptiveDifficulty (student_progress : List (String × ProgressEntry))
    (subject grade : String) : String :=
  match student_progress.lookup (subject ++ "_" ++ grade) with
  | none => "easy"
  | some progress =>
    let window := progress.recent_scores
    let recent_average : ℚ :=
      if window.length = 0 then 0 else window.sum / (window.length : ℚ)
    let thresholds := (score_thresholds.lookup progress.current_difficulty).getD (80, 50)
    if thresholds.1 ≤ recent_average then
      if progress.current_difficulty = "easy" then "medium"
      else if progress.current_difficulty = "medium" then "hard"
      else "hard"
    else if recent_average < thresholds.2 then
      if progress.current_difficulty = "hard" then "medium"
      else if progress.current_difficulty = "medium" then "easy"
      else "easy"
    else progress.current_difficulty

/-!  Concrete fixtures used by the claim theorems, built from the question
banks above. -/

/-- A concrete easy 5-question session (the end-to-end scenario of the
spec: an easy Math-style quiz of 5 questions), drawn from the easy questions
of the banks. -/
def demoSessionEasy : QuizSession :=
  { session_id := "quiz_demo_easy"
    grade := "6th"
    board := "Karnataka State Board"
    subject := "Math"
    questions := mathQuestions5th.take 2 ++ mathQuestions5th.drop 4 ++
      scienceQuestions5th.take 1 ++ (scienceQuestions5th.drop 2).take 1
    user_answers := []
    score := 0
    total_questions := 5
    time_taken := 0
    timestamp := 0
    difficulty_level := "easy"
    topics_covered := ["Addition", "Subtraction", "Geometry", "Plant Life", "Human Body"] }

/-- A concrete medium 4-question Math session for grade 6th. -/
def cexSessionMedium : QuizSession :=
  { session_id := "quiz_cex_medium"
    grade := "6th"
    board := "CBSE"
    subject := "Math"
    questions := mathQuestions6th ++ (mathQuestions5th.drop 2).take 1
    user_answers := []
    score := 0
    total_questions := 4
    time_taken := 0
    timestamp := 0
    difficulty_level := "medium"
    topics_covered := ["Division", "Decimals and Fractions", "Area and Perimeter",
      "Multiplication"] }

/-- A concrete single-question easy session. -/
def oneQuestionSession : QuizSession :=
  { session_id := "quiz_one"
    grade := "5th"
    board := "CBSE"
    subject := "Math"
    questions := mathQuestions5th.take 1
    user_answers := []
    score := 0
    total_questions := 1
    time_taken := 0
    timestamp := 0
    difficulty_level := "easy"
    topics_covered := ["Addition"] }

/-- A concrete ledger: a student holding 150 lifetime/current coins with a
7-day streak and no unlocked achievements. -/
def cexProfile : StudentProfile :=
  { freshProfile "default_student" 0 with
    total_coins := 150, current_coins := 150, streak_days := 7, longest_streak := 7 }

/-!  ## Helper lemmas -/

theorem setAssoc_lookup {α : Type} (key k : String) (v : α) (l : List (String × α)) :
    (setAssoc key v l).lookup k = if k = key then some v else l.lookup k := by
  induction l with
  | nil =>
    by_cases h : k = key
    · simp [setAssoc, List.lookup, h]
    · have hb : (k == key) = false := beq_eq_false_iff_ne.mpr h
      simp [setAssoc, List.lookup, hb, h]
  | cons p rest ih =>
    obtain ⟨k0, w⟩ := p
    by_cases h0 : k0 = key
    · subst h0
      by_cases h : k = k0
      · simp [setAssoc, List.lookup, h]
      · have hb : (k == k0) = false := beq_eq_false_iff_ne.mpr h
        simp [setAssoc, List.lookup, hb, h]
    · by_cases h : k = k0
      · subst h
        have hne : ¬ k = key := h0
        simp [setAssoc, List.lookup, h0, hne]
      · have hb : (k == k0) = false := beq_eq_false_iff_ne.mpr h
        simp [setAssoc, List.lookup, h0, h, hb, ih]

theorem checkAchievementsAux_ledger (cat : List Achievement) (s : StudentProfile) :
    (checkAchievementsAux cat s).1.achievements
      = s.achievements ++ ((checkAchievementsAux cat s).2.map fun a => a.id) ∧
    (checkAchievementsAux cat s).1.current_coins
      = s.current_coins
        + ((checkAchievementsAux cat s).2.map fun a => (a.reward_coins : Int)).sum ∧
    (checkAchievementsAux cat s).1.total_coins
      = s.total_coins
        + ((checkAchievementsAux cat s).2.map fun a => (a.reward_coins : Int)).sum ∧
    (checkAchievementsAux cat s).1.streak_days = s.streak_days ∧
    (checkAchievementsAux cat s).1.longest_streak = s.longest_streak ∧
    (checkAchievementsAux cat s).1.level = s.level ∧
    (checkAchievementsAux cat s).1.experience_points = s.experience_points ∧
    (checkAchievementsAux cat s).1.last_activity = s.last_activity := by
  induction cat generalizing s with
  | nil => simp [checkAchievementsAux]
  | cons a rest ih =>
    simp only [checkAchievementsAux]
    split_ifs with h1 h2
    · exact ih s
    · have h := ih { s with
        achievements := s.achievements ++ [a.id],
        current_coins := s.current_coins + a.reward_coins,
        total_coins := s.total_coins + a.reward_coins }
      refine ⟨?_, ?_, ?_, h.2.2.2.1, h.2.2.2.2.1, h.2.2.2.2.2.1,
        h.2.2.2.2.2.2.1, h.2.2.2.2.2.2.2⟩
      · rw [h.1]; simp
      · rw [h.2.1]; simp; ring
      · rw [h.2.2.1]; simp; ring
    · exact ih s

theorem checkAchievementsAux_new_not_unlocked (cat : List Achievement) (s : StudentProfile) :
    ∀ a ∈ (checkAchievementsAux cat s).2, a.id ∉ s.achievements := by
  induction cat generalizing s with
  | nil => simp [checkAchievementsAux]
  | cons a rest ih =>
    simp only [checkAchievementsAux]
    split_ifs with h1 h2
    · exact ih s
    · intro b hb
      rcases List.mem_cons.mp hb with hb | hb
      · subst hb; exact h1
      · have := ih { s with
          achievements := s.achievements ++ [a.id],
          current_coins := s.current_coins + a.reward_coins,
          total_coins := s.total_coins + a.reward_coins } b hb
        simp at this
        exact this.1
    · exact ih s

theorem checkAchievementsAux_new_ids_nodup (cat : List Achievement) (s : StudentProfile) :
    ((checkAchievementsAux cat s).2.map fun a => a.id).Nodup := by
  induction cat generalizing s with
  | nil => simp [checkAchievementsAux]
  | cons a rest ih =>
    simp only [checkAchievementsAux]
    split_ifs with h1 h2
    · exact ih s
    · simp only [List.map_cons, List.nodup_cons]
      constructor
      · intro hmem
        obtain ⟨b, hb, hbid⟩ := List.mem_map.mp hmem
        have hnot := checkAchievementsAux_new_not_unlocked rest { s with
          achievements := s.achievements ++ [a.id],
          current_coins := s.current_coins + a.reward_coins,
          total_coins := s.total_coins + a.reward_coins } b hb
        simp at hnot
        exact hnot.2 hbid
      · exact ih _
    · exact ih s

theorem _award_experience_fields (amount : Nat) (s : StudentProfile) :
    (_award_experience amount s).total_coins = s.total_coins ∧
    s.current_coins ≤ (_award_experience amount s).current_coins ∧
    (_award_experience amount s).streak_days = s.streak_days ∧
    (_award_experience amount s).longest_streak = s.longest_streak ∧
    (_award_experience amount s).achievements = s.achievements ∧
    (_award_experience amount s).last_activity = s.last_activity := by
  unfold _award_experience
  dsimp only
  split_ifs with h
  · exact ⟨rfl, le_add_of_nonneg_right (by positivity), rfl, rfl, rfl, rfl⟩
  · exact ⟨rfl, le_refl _, rfl, rfl, rfl, rfl⟩

theorem award_coins_fields (final_amount : Nat) (now : Int) (s : StudentProfile) :
    (award_coins final_amount now s).streak_days = s.streak_days ∧
    (award_coins final_amount now s).longest_streak = s.longest_streak ∧
    s.current_coins ≤ (award_coins final_amount now s).current_coins ∧
    s.total_coins ≤ (award_coins final_amount now s).total_coins := by
  unfold award_coins _check_achievements
  dsimp only
  have hexp := _award_experience_fields final_amount { s with
    current_coins := s.current_coins + final_amount,
    total_coins := s.total_coins + final_amount,
    last_activity := some now }
  have hled := checkAchievementsAux_ledger achievementCatalog
    (_award_experience final_amount { s with
      current_coins := s.current_coins + final_amount,
      total_coins := s.total_coins + final_amount,
      last_activity := some now })
  have hsum : 0 ≤ ((checkAchievementsAux achievementCatalog
      (_award_experience final_amount { s with
        current_coins := s.current_coins + final_amount,
        total_coins := s.total_coins + final_amount,
        last_activity := some now })).2.map fun a => (a.reward_coins : Int)).sum := by
    apply List.sum_nonneg
    intro x hx
    obtain ⟨b, -, hb⟩ := List.mem_map.mp hx
    rw [← hb]
    positivity
  refine ⟨?_, ?_, ?_, ?_⟩
  · rw [hled.2.2.2.1, hexp.2.2.1]
  · rw [hled.2.2.2.2.1, hexp.2.2.2.1]
  · calc s.current_coins ≤ s.current_coins + final_amount := by omega
    _ ≤ (_award_experience final_amount { s with
          current_coins := s.current_coins + final_amount,
          total_coins := s.total_coins + final_amount,
          last_activity := some now }).current_coins := hexp.2.1
    _ ≤ _ := by rw [hled.2.1]; omega
  · calc s.total_coins ≤ s.total_coins + final_amount := by omega
    _ = (_award_experience final_amount { s with
          current_coins := s.current_coins + final_amount,
          total_coins := s.total_coins + final_amount,
          last_activity := some now }).total_coins := hexp.1.symm
    _ ≤ _ := by rw [hled.2.2.1]; omega

/-!  ## Claim theorems -/

/-- C10: for every student id not yet in the profile store,
`_get_or_create_student` returns a fresh profile with 100 current coins and
100 lifetime coins (the starting grant counts toward lifetime coins before
any activity), level 1, 0 XP, zero streaks and activity counters, and empty
achievement and perk sets. -/
theorem get_or_create_student_fresh_profile
    (student_id : String) (now : Int) (profiles : List (String × StudentProfile))
    (h : profiles.lookup student_id = none) :
    (_get_or_create_student student_id now profiles).1.total_coins = 100 ∧
    (_get_or_create_student student_id now profiles).1.current_coins = 100 ∧
    (_get_or_create_student student_id now profiles).1.level = 1 ∧
    (_get_or_create_student student_id now profiles).1.experience_points = 0 ∧
    (_get_or_create_student student_id now profiles).1.streak_days = 0 ∧
    (_get_or_create_student student_id now profiles).1.longest_streak = 0 ∧
    (_get_or_create_student student_id now profiles).1.total_quizzes = 0 ∧
    (_get_or_create_student student_id now profiles).1.total_videos = 0 ∧
    (_get_or_create_student student_id now profiles).1.study_minutes = 0 ∧
    (_get_or_create_student student_id now profiles).1.achievements = [] ∧
    (_get_or_create_student student_id now profiles).1.owned_perks = [] := by
  unfold _get_or_create_student
  rw [h]
  exact ⟨rfl, rfl, rfl, rfl, rfl, rfl, rfl, rfl, rfl, rfl, rfl⟩

/-- Witness for C10 at a concrete fresh store. -/
theorem get_or_create_student_fresh_profile_witness :
    (_get_or_create_student "alice" 7 []).1.total_coins = 100 ∧
    (_get_or_create_student "alice" 7 []).1.current_coins = 100 ∧
    (_get_or_create_student "alice" 7 []).1.level = 1 ∧
    (_get_or_create_student "alice" 7 []).1.experience_points = 0 ∧
    (_get_or_create_student "alice" 7 []).1.streak_days = 0 ∧
    (_get_or_create_student "alice" 7 []).1.longest_streak = 0 ∧
    (_get_or_create_student "alice" 7 []).1.total_quizzes = 0 ∧
    (_get_or_create_student "alice" 7 []).1.total_videos = 0 ∧
    (_get_or_create_student "alice" 7 []).1.study_minutes = 0 ∧
    (_get_or_create_student "alice" 7 []).1.achievements = [] ∧
    (_get_or_create_student "alice" 7 []).1.owned_perks = [] :=
  get_or_create_student_fresh_profile "alice" 7 [] rfl

/-- C3 counterexample: awarding 50 coins to a fresh profile (100/100 coins,
level 1, 0 XP) raises the level to 2 and grants the `2 * 20 = 40` bonus, but
only `current_coins` receives it: the run ends with `current_coins = 190`
and `total_coins = 150`, whereas crediting the bonus to both balances, as
the claim states, would require `total_coins = 190`. -/
theorem award_level_bonus_cex :
    (award_coins 50 0 (freshProfile "default_student" 0)).level = 2 ∧
    (award_coins 50 0 (freshProfile "default_student" 0)).current_coins = 190 ∧
    (award_coins 50 0 (freshProfile "default_student" 0)).total_coins = 150 ∧
    (150 : Int) ≠ 190 := by
  refine ⟨by decide, by decide, by decide, by decide⟩

/-- C3 amended: whenever awarding experience raises the level, the one-time
bonus of `new_level * 20` coins is credited — after the primary award — to
the current coin balance only; `_award_experience` never changes the
lifetime `total_coins`. -/
theorem award_level_bonus_current_only (amount : Nat) (s : StudentProfile) :
    (_award_experience amount s).total_coins = s.total_coins ∧
    (s.level < _calculate_level (s.experience_points + amount) →
      (_award_experience amount s).current_coins
        = s.current_coins + (_calculate_level (s.experience_points + amount) * 20 : Nat) ∧
      (_award_experience amount s).level
        = _calculate_level (s.experience_points + amount)) ∧
    (¬ s.level < _calculate_level (s.experience_points + amount) →
      (_award_experience amount s).current_coins = s.current_coins ∧
      (_award_experience amount s).level = s.level) := by
  unfold _award_experience
  dsimp only
  split_ifs with h
  · exact ⟨rfl, fun _ => ⟨rfl, rfl⟩, fun h2 => absurd h h2⟩
  · exact ⟨rfl, fun h2 => absurd h2 h, fun _ => ⟨rfl, rfl⟩⟩

/-- Witness for C3 amended: 50 XP moves a fresh profile from level 1 to
level 2 and pays the 40-coin bonus into `current_coins` (100 → 140) while
`total_coins` stays at 100. -/
theorem award_level_bonus_current_only_witness :
    (_award_experience 50 (freshProfile "w3" 0)).total_coins = 100 ∧
    (_award_experience 50 (freshProfile "w3" 0)).current_coins = 140 := by
  have h := award_level_bonus_current_only 50 (freshProfile "w3" 0)
  refine ⟨h.1.trans (by decide), ?_⟩
  have h2 := (h.2.1 (by decide)).1
  exact h2.trans (by decide)

/-- C2 counterexample: a quiz request for the subject `"History"` (absent
from the question banks) leaves the pool empty after the difficulty filter
and after the all-grades fallback, and `generate_quiz` returns — without
raising — a session with `questions = []` and `total_questions = 0`; no
placeholder question is synthesized, contradicting the claimed
`total_questions ≥ 1`. -/
theorem generate_quiz_missing_content_cex :
    (generate_quiz (fun pool n => pool.take n) "quiz_1" 0 [] "5th" "CBSE" "History"
      "easy" (some 5) []).total_questions = 0 ∧
    (generate_quiz (fun pool n => pool.take n) "quiz_1" 0 [] "5th" "CBSE" "History"
      "easy" (some 5) []).questions = [] := by
  refine ⟨by decide, by decide⟩

/-- C2 amended: when the pool is empty after the difficulty/topic filter,
`generate_quiz` falls back to the subject's full pool across all grades;
when the subject is absent from the banks (so the fallback pool is empty as
well), it still returns a structurally valid session — but one with zero
questions (`questions = []`, `total_questions = 0`), not a synthesized
placeholder.  No exception is raised on this path (the placeholder quiz of
`_create_fallback_quiz` is built only inside the exception handler, which
the empty-pool path never reaches). -/
theorem generate_quiz_missing_content_empty_session
    (sample : List Question → Nat → List Question) (session_id : String) (now : Int)
    (student_progress : List (String × ProgressEntry))
    (grade board subject difficulty : String)
    (num_questions : Option Nat) (topics : List String)
    (h : question_banks.lookup subject = none) :
    (generate_quiz sample session_id now student_progress grade board subject
      difficulty num_questions topics).questions = [] ∧
    (generate_quiz sample session_id now student_progress grade board subject
      difficulty num_questions topics).total_questions = 0 := by
  unfold generate_quiz _get_questions_pool _get_fallback_questions
  rw [h]
  simp [_select_questions]

/-- Witness for C2 amended at another concrete unknown subject. -/
theorem generate_quiz_missing_content_empty_session_witness :
    (generate_quiz (fun pool n => pool.take n) "quiz_2" 1 [] "6th" "ICSE" "Geography"
      "auto" none []).questions = [] ∧
    (generate_quiz (fun pool n => pool.take n) "quiz_2" 1 [] "6th" "ICSE" "Geography"
      "auto" none []).total_questions = 0 :=
  generate_quiz_missing_content_empty_session (fun pool n => pool.take n) "quiz_2" 1 []
    "6th" "ICSE" "Geography" "auto" none [] (by decide)

theorem base_coins_cases (d : String) :
    base_coins d = 10 ∨ base_coins d = 20 ∨ base_coins d = 30 := by
  unfold base_coins
  by_cases h1 : d = "easy"
  · simp [h1, List.lookup]
  · by_cases h2 : d = "medium"
    · simp [h2, List.lookup]
    · by_cases h3 : d = "hard"
      · simp [h3, List.lookup]
      · have b1 : (d == "easy") = false := beq_eq_false_iff_ne.mpr h1
        have b2 : (d == "medium") = false := beq_eq_false_iff_ne.mpr h2
        have b3 : (d == "hard") = false := beq_eq_false_iff_ne.mpr h3
        simp [List.lookup, b1, b2, b3]

/-- C8: at any fixed difficulty, the coin award of `_calculate_coins` is
monotonically non-decreasing in the percentage: the tier values
`max(5, base // 2) ≤ base ≤ int(base * 1.5) ≤ base * 2 ≤ base * 3` are
ordered for every base the `base_coins` table can produce (10, 20, 30). -/
theorem calculate_coins_monotone (difficulty : String) (p1 p2 : ℚ) (h : p1 ≤ p2) :
    _calculate_coins p1 difficulty ≤ _calculate_coins p2 difficulty := by
  unfold _calculate_coins
  rcases base_coins_cases difficulty with hb | hb | hb <;> rw [hb] <;>
    split_ifs <;> first | (with_unfolding_all decide) | linarith

/-- Witness for C8: 50% never earns more than 95% at easy difficulty. -/
theorem calculate_coins_monotone_witness :
    _calculate_coins 50 "easy" ≤ _calculate_coins 95 "easy" :=
  calculate_coins_monotone "easy" 50 95 (by norm_num)

/-- C4: `spend_coins` succeeds — deducting from `current_coins` only and
leaving `total_coins` unchanged — exactly when `current_coins ≥ amount`; on
failure it returns `false` without any state change; and consequently every
sequence of `award_coins`/`spend_coins` operations started from a
nonnegative balance keeps `current_coins ≥ 0` (awards only ever add coins:
the credited amount, the level-up bonus and achievement rewards are all
nonnegative). -/
theorem spend_coins_correct :
    (∀ (amount now : Int) (s : StudentProfile),
      (spend_coins amount now s).1 = true ↔ amount ≤ s.current_coins) ∧
    (∀ (amount now : Int) (s : StudentProfile),
      (spend_coins amount now s).1 = true →
        (spend_coins amount now s).2.current_coins = s.current_coins - amount ∧
        (spend_coins amount now s).2.total_coins = s.total_coins) ∧
    (∀ (amount now : Int) (s : StudentProfile),
      (spend_coins amount now s).1 = false → (spend_coins amount now s).2 = s) ∧
    (∀ (ops : List CoinOp) (s : StudentProfile),
      0 ≤ s.current_coins → 0 ≤ (runCoinOps ops s).current_coins) := by
  have hinv : ∀ (ops : List CoinOp) (s : StudentProfile),
      0 ≤ s.current_coins → 0 ≤ (runCoinOps ops s).current_coins := by
    intro ops
    induction ops with
    | nil => intro s h; exact h
    | cons op rest ih =>
      intro s h
      cases op with
      | award a now =>
        exact ih _ (le_trans h (award_coins_fields a now s).2.2.1)
      | spend a now =>
        refine ih _ ?_
        unfold spend_coins
        split_ifs with hc
        · dsimp only
          omega
        · exact h
  refine ⟨?_, ?_, ?_, hinv⟩
  · intro amount now s
    unfold spend_coins
    split_ifs with hc <;> simp [hc]
  · intro amount now s hs
    unfold spend_coins at hs ⊢
    split_ifs at hs ⊢ with hc
    exact ⟨rfl, rfl⟩
  · intro amount now s hs
    unfold spend_coins at hs ⊢
    split_ifs at hs ⊢ with hc
    rfl

/-- Witness for C4: the spec scenario — a ledger holding 40 coins refuses
`spend_coins 50` with no mutation, and a concrete award/spend/spend run from
a fresh profile keeps the balance nonnegative. -/
theorem spend_coins_correct_witness :
    ((spend_coins 50 0 { freshProfile "w4" 0 with current_coins := 40 }).1 = false →
      (spend_coins 50 0 { freshProfile "w4" 0 with current_coins := 40 }).2
        = { freshProfile "w4" 0 with current_coins := 40 }) ∧
    0 ≤ (runCoinOps [CoinOp.award 20 0, CoinOp.spend 50 1, CoinOp.spend 100 2]
          (freshProfile "w4" 0)).current_coins :=
  ⟨spend_coins_correct.2.2.1 50 0 { freshProfile "w4" 0 with current_coins := 40 },
   spend_coins_correct.2.2.2 [CoinOp.award 20 0, CoinOp.spend 50 1, CoinOp.spend 100 2]
     (freshProfile "w4" 0) (by decide)⟩

/-- C6: `_recommend_next_difficulty` implements the per-difficulty table
easy{promote 80, demote 40}, medium{promote 85, demote 50},
hard{promote 90, demote 60}: at or above promote it moves up one tier
(ceiling at hard), strictly below demote it moves down one tier (floor at
easy), otherwise it stays; and the concrete easy quiz scored 4/5 (80.0%)
earns `10 * 2 = 20` coins with next difficulty `"medium"`. -/
theorem recommend_next_difficulty_table (p : ℚ) :
    ((80 ≤ p → _recommend_next_difficulty p "easy" = "medium") ∧
     (p < 40 → _recommend_next_difficulty p "easy" = "easy") ∧
     (40 ≤ p → p < 80 → _recommend_next_difficulty p "easy" = "easy")) ∧
    ((85 ≤ p → _recommend_next_difficulty p "medium" = "hard") ∧
     (p < 50 → _recommend_next_difficulty p "medium" = "easy") ∧
     (50 ≤ p → p < 85 → _recommend_next_difficulty p "medium" = "medium")) ∧
    ((90 ≤ p → _recommend_next_difficulty p "hard" = "hard") ∧
     (p < 60 → _recommend_next_difficulty p "hard" = "medium") ∧
     (60 ≤ p → p < 90 → _recommend_next_difficulty p "hard" = "hard")) ∧
    ((score_quiz demoSessionEasy [0, 1, 1, 2, 0] 120 "t" []).1.percentage = 80 ∧
     (score_quiz demoSessionEasy [0, 1, 1, 2, 0] 120 "t" []).1.coins_earned = 20 ∧
     (score_quiz demoSessionEasy [0, 1, 1, 2, 0] 120 "t" []).1.next_difficulty
       = "medium") := by
  have heasy : (score_thresholds.lookup "easy").getD (80, 50) = (80, 40) := rfl
  have hmedium : (score_thresholds.lookup "medium").getD (80, 50) = (85, 50) := rfl
  have hhard : (score_thresholds.lookup "hard").getD (80, 50) = (90, 60) := rfl
  refine ⟨⟨?_, ?_, ?_⟩, ⟨?_, ?_, ?_⟩, ⟨?_, ?_, ?_⟩, ?_⟩
  · intro h1
    unfold _recommend_next_difficulty
    rw [heasy, if_pos h1]
    decide
  · intro h1
    unfold _recommend_next_difficulty
    rw [heasy, if_neg (by dsimp only; linarith), if_pos (by dsimp only; linarith)]
    decide
  · intro h1 h2
    unfold _recommend_next_difficulty
    rw [heasy, if_neg (by dsimp only; linarith), if_neg (by dsimp only; linarith)]
  · intro h1
    unfold _recommend_next_difficulty
    rw [hmedium, if_pos h1]
    decide
  · intro h1
    unfold _recommend_next_difficulty
    rw [hmedium, if_neg (by dsimp only; linarith), if_pos (by dsimp only; linarith)]
    decide
  · intro h1 h2
    unfold _recommend_next_difficulty
    rw [hmedium, if_neg (by dsimp only; linarith), if_neg (by dsimp only; linarith)]
  · intro h1
    unfold _recommend_next_difficulty
    rw [hhard, if_pos h1]
    decide
  · intro h1
    unfold _recommend_next_difficulty
    rw [hhard, if_neg (by dsimp only; linarith), if_pos (by dsimp only; linarith)]
    decide
  · intro h1 h2
    unfold _recommend_next_difficulty
    rw [hhard, if_neg (by dsimp only; linarith), if_neg (by dsimp only; linarith)]
  · exact ⟨by with_unfolding_all decide, by with_unfolding_all decide,
      by with_unfolding_all decide⟩

/-- Witness for C6: the table applied at concrete percentages — 80% at easy
promotes to medium, 95% at hard stays at hard. -/
theorem recommend_next_difficulty_table_witness :
    _recommend_next_difficulty 80 "easy" = "medium" ∧
    _recommend_next_difficulty 95 "hard" = "hard" :=
  ⟨(recommend_next_difficulty_table 80).1.1 (by norm_num),
   (recommend_next_difficulty_table 95).2.2.1.1 (by norm_num)⟩

/-- C1 (code bug): `update_activity` overwrites `last_activity` with the
current timestamp (line 680) before `_update_streak` runs (line 692), so
the streak comparison always sees `days_diff = 0` and neither `streak_days`
nor `longest_streak` ever changes — the same-day / next-day / gap case
analysis of `_update_streak` is dead code.  Concretely, a fresh profile
whose last activity was day 0 records a quiz on day 1 and its streak stays
0 instead of becoming 1. -/
theorem update_activity_streak_frozen :
    (∀ (activity_type : String) (minutes score challengeDelta : Nat)
        (now_date : Int) (s : StudentProfile),
      (update_activity activity_type minutes score challengeDelta now_date s).streak_days
        = s.streak_days ∧
      (update_activity activity_type minutes score challengeDelta now_date s).longest_streak
        = s.longest_streak) ∧
    (update_activity "quiz" 0 85 10 1 (freshProfile "default_student" 0)).streak_days
      = 0 := by
  have hupd : ∀ (now_date : Int) (t : StudentProfile),
      t.last_activity = some now_date → _update_streak now_date t = t := by
    intro now_date t ht
    unfold _update_streak
    rw [ht]
    simp
  constructor
  · intro activity_type minutes score challengeDelta now_date s
    unfold update_activity
    dsimp only
    split_ifs with h1 h2 h3 <;> rw [hupd now_date _ rfl] <;>
      unfold _check_daily_challenges <;> split_ifs <;>
        first
          | exact ⟨(award_coins_fields _ _ _).1, (award_coins_fields _ _ _).2.1⟩
          | exact ⟨rfl, rfl⟩
  · decide

/-- C9 counterexample: on a ledger with 150 lifetime coins, a 7-day streak
and nothing unlocked, the first achievement check unlocks exactly
`streak_week` (crediting its 75-coin reward, lifting `total_coins` to 225);
a second check with no intervening activity then unlocks `perfect_score`
(whose requirement reads `total_coins ≥ 200`), so the repeated call does
unlock something new, contradicting the claim. -/
theorem check_achievements_second_run_cex :
    ((_check_achievements cexProfile).2.map fun a => a.id) = ["streak_week"] ∧
    (((_check_achievements (_check_achievements cexProfile).1).2.map fun a => a.id)
      = ["perfect_score"]) ∧
    (_check_achievements (_check_achievements cexProfile).1).2 ≠ [] := by
  refine ⟨by decide, by decide, by decide⟩

/-- C9 amended: achievement unlocking is idempotent per achievement — an id
already in the unlocked set is skipped by every later check, its reward is
never credited again, and the unlocked set stays duplicate-free (the
newly-unlocked list is disjoint from the already-unlocked set, has no
duplicate ids, and the coin credit of a run is exactly the sum of the
rewards of the achievements newly unlocked in that run).  A repeated call
with no intervening activity may however unlock further achievements,
because the reward coins credited by the first call raise `total_coins`,
which some requirements read. -/
theorem check_achievements_idempotent_per_achievement (s : StudentProfile) :
    (∀ a ∈ (_check_achievements s).2, a.id ∉ s.achievements) ∧
    ((_check_achievements s).1.achievements
      = s.achievements ++ ((_check_achievements s).2.map fun a => a.id)) ∧
    (((_check_achievements s).2.map fun a => a.id).Nodup) ∧
    (s.achievements.Nodup → (_check_achievements s).1.achievements.Nodup) ∧
    ((_check_achievements s).1.total_coins
      = s.total_coins
        + ((_check_achievements s).2.map fun a => (a.reward_coins : Int)).sum) ∧
    ((_check_achievements s).1.current_coins
      = s.current_coins
        + ((_check_achievements s).2.map fun a => (a.reward_coins : Int)).sum) := by
  unfold _check_achievements
  have hled := checkAchievementsAux_ledger achievementCatalog s
  have hnew := checkAchievementsAux_new_not_unlocked achievementCatalog s
  have hnodup := checkAchievementsAux_new_ids_nodup achievementCatalog s
  refine ⟨hnew, hled.1, hnodup, ?_, hled.2.2.1, hled.2.1⟩
  intro hs
  rw [hled.1]
  refine List.Nodup.append hs hnodup ?_
  intro x hx hmem
  obtain ⟨b, hb, hbid⟩ := List.mem_map.mp hmem
  exact hnew b hb (hbid ▸ hx)

/-- Witness for C9 amended: applied to the concrete ledger, the unlocked
set after one check is duplicate-free and extends the empty prior set by the
newly unlocked ids. -/
theorem check_achievements_idempotent_witness :
    (_check_achievements cexProfile).1.achievements.Nodup ∧
    (_check_achievements cexProfile).1.achievements
      = cexProfile.achievements ++ ((_check_achievements cexProfile).2.map fun a => a.id) := by
  have h := check_achievements_idempotent_per_achievement cexProfile
  exact ⟨h.2.2.2.1 (by decide), h.2.1⟩

/-- C7 counterexample: after one medium quiz scored 3/4 (75%), the stored
progress for `Math_6th` holds `recent_scores = [75]` and
`current_difficulty = "medium"` — the claim's policy (recent average 75
against the medium thresholds promote 85 / demote 50) stays at `"medium"`,
but `_get_adaptive_difficulty` returns `"easy"`: it reads the never-written
`recent_average` key, defaults it to 50, and 50 < 60. -/
theorem adaptive_difficulty_cex :
    _get_adaptive_difficulty
      (score_quiz cexSessionMedium [0, 0, 0, 1] 60 "2026-01-01" []).2 "Math" "6th"
      = "easy" ∧
    claimedAdaptiveDifficulty
      (score_quiz cexSessionMedium [0, 0, 0, 1] 60 "2026-01-01" []).2 "Math" "6th"
      = "medium" ∧
    ("easy" : String) ≠ "medium" := by
  refine ⟨by with_unfolding_all decide, by with_unfolding_all decide, by decide⟩

/-- C7 amended: with no history for (subject, grade) the adaptive selection
returns `"easy"`.  Otherwise it does not consult the per-difficulty
threshold table at all: it reads the stored `recent_average` value with
default 50 and applies fixed 80/60 cutoffs — and since
`_update_student_progress` never writes a `recent_average` key, every
progress state the program can produce yields the default 50 and hence
`"easy"`. -/
theorem adaptive_difficulty_amended :
    (∀ (student_progress : List (String × ProgressEntry)) (subject grade : String),
      student_progress.lookup (subject ++ "_" ++ grade) = none →
      _get_adaptive_difficulty student_progress subject grade = "easy") ∧
    (∀ (student_progress : List (String × ProgressEntry)) (subject grade : String),
      (∀ k e, student_progress.lookup k = some e → e.recent_average = none) →
      _get_adaptive_difficulty student_progress subject grade = "easy") ∧
    (∀ (now_iso : String) (session : QuizSession) (percentage : ℚ)
        (student_progress : List (String × ProgressEntry)),
      (∀ k e, student_progress.lookup k = some e → e.recent_average = none) →
      ∀ k e, (_update_student_progress now_iso session percentage
          student_progress).lookup k = some e → e.recent_average = none) := by
  refine ⟨?_, ?_, ?_⟩
  · intro student_progress subject grade h
    unfold _get_adaptive_difficulty
    dsimp only
    rw [h]
  · intro student_progress subject grade hall
    unfold _get_adaptive_difficulty
    dsimp only
    cases hl : student_progress.lookup (subject ++ "_" ++ grade) with
    | none => rfl
    | some e =>
      dsimp only
      have he : e.recent_average = none := hall _ _ hl
      rw [he]
      simp only [Option.getD_none]
      rw [if_neg (by norm_num), if_neg (by norm_num)]
  · intro now_iso session percentage student_progress hall k e hk
    unfold _update_student_progress at hk
    rw [setAssoc_lookup] at hk
    by_cases hkey : k = session.subject ++ "_" ++ session.grade
    · rw [if_pos hkey] at hk
      cases hk
      cases hbase : student_progress.lookup (session.subject ++ "_" ++ session.grade) with
      | none => rfl
      | some e0 =>
        show e0.recent_average = none
        exact hall (session.subject ++ "_" ++ session.grade) e0 hbase
    · rw [if_neg hkey] at hk
      exact hall _ _ hk

/-- Witness for C7 amended: on an empty progress store the adaptive
selection returns easy. -/
theorem adaptive_difficulty_amended_witness :
    _get_adaptive_difficulty [] "Science" "7th" = "easy" :=
  adaptive_difficulty_amended.1 [] "Science" "7th" rfl

theorem gradeAux_count_le (user_answers : List Int) (questions : List Question) :
    ∀ (i c : Nat) (rs : List QuestionResult),
      gradeAux user_answers questions i = Except.ok (c, rs) → c ≤ questions.length := by
  induction questions with
  | nil =>
    intro i c rs h
    simp only [gradeAux, Except.ok.injEq, Prod.mk.injEq] at h
    omega
  | cons q rest ih =>
    intro i c rs h
    simp only [gradeAux] at h
    cases hopt : q.options.get? q.correct_answer with
    | none => rw [hopt] at h; simp at h
    | some correct_str =>
      rw [hopt] at h
      cases hrec : gradeAux user_answers rest (i + 1) with
      | error e => rw [hrec] at h; simp at h
      | ok p =>
        obtain ⟨c0, rs0⟩ := p
        rw [hrec] at h
        simp only [Except.ok.injEq, Prod.mk.injEq] at h
        obtain ⟨hc, -⟩ := h
        have hrec_le := ih (i + 1) c0 rs0 hrec
        simp only [List.length_cons]
        rw [← hc]
        split_ifs <;> omega

/-- C5: for every scored session whose `total_questions` matches its question
list (the shape every `generate_quiz` session has — last conjunct), the
returned percentage is `100 * correct / total` and lies in [0, 100]; a
session with `total_questions = 0` hits the caught `ZeroDivisionError`
branch and yields the degraded result (percentage 0, score 0, 10
consolation coins) instead of propagating an error — `score_quiz` is a
total function, so no scoring call can crash the caller. -/
theorem score_quiz_percentage_safe
    (session : QuizSession) (user_answers : List Int) (time_taken : ℚ)
    (now_iso : String) (student_progress : List (String × ProgressEntry))
    (hwf : session.total_questions = session.questions.length) :
    0 ≤ (score_quiz session user_answers time_taken now_iso student_progress).1.percentage ∧
    (score_quiz session user_answers time_taken now_iso student_progress).1.percentage
      ≤ 100 ∧
    (session.total_questions = 0 →
      (score_quiz session user_answers time_taken now_iso student_progress).1.percentage
        = 0 ∧
      (score_quiz session user_answers time_taken now_iso student_progress).1.score = 0 ∧
      (score_quiz session user_answers time_taken now_iso
        student_progress).1.coins_earned = 10 ∧
      (score_quiz session user_answers time_taken now_iso student_progress).1.is_error
        = true) ∧
    ((score_quiz session user_answers time_taken now_iso student_progress).1.is_error
        = false →
      (score_quiz session user_answers time_taken now_iso student_progress).1.percentage
        = 100 * ((score_quiz session user_answers time_taken now_iso
            student_progress).1.score : ℚ) / (session.total_questions : ℚ)) ∧
    (∀ (sample : List Question → Nat → List Question) (session_id : String) (now : Int)
        (progress : List (String × ProgressEntry))
        (grade board subject difficulty : String)
        (num_questions : Option Nat) (topics : List String),
      (generate_quiz sample session_id now progress grade board subject difficulty
        num_questions topics).total_questions
      = (generate_quiz sample session_id now progress grade board subject difficulty
        num_questions topics).questions.length) := by
  have hgen : ∀ (sample : List Question → Nat → List Question) (session_id : String)
      (now : Int) (progress : List (String × ProgressEntry))
      (grade board subject difficulty : String)
      (num_questions : Option Nat) (topics : List String),
      (generate_quiz sample session_id now progress grade board subject difficulty
        num_questions topics).total_questions
      = (generate_quiz sample session_id now progress grade board subject difficulty
        num_questions topics).questions.length := by
    intro sample session_id now progress grade board subject difficulty num_questions topics
    rfl
  unfold score_quiz
  dsimp only
  cases hg : gradeQuestions session.questions user_answers with
  | error e =>
    simp only [hg]
    refine ⟨by norm_num [errorScoreResult], by norm_num [errorScoreResult],
      fun _ => ⟨rfl, rfl, rfl, rfl⟩, fun hfalse => ?_, hgen⟩
    exact absurd hfalse (by simp [errorScoreResult])
  | ok p =>
    obtain ⟨c, qrs⟩ := p
    simp only [hg]
    by_cases h0 : session.total_questions = 0
    · rw [if_pos h0]
      refine ⟨by norm_num [errorScoreResult], by norm_num [errorScoreResult],
        fun _ => ⟨rfl, rfl, rfl, rfl⟩, fun hfalse => ?_, hgen⟩
      exact absurd hfalse (by simp [errorScoreResult])
    · rw [if_neg h0]
      dsimp only
      have hc_le : c ≤ session.questions.length :=
        gradeAux_count_le user_answers session.questions 0 c qrs hg
      have htpos : (0 : ℚ) < (session.total_questions : ℚ) := by
        have := Nat.pos_of_ne_zero h0
        exact_mod_cast this
      have hc_le_t : (c : ℚ) ≤ (session.total_questions : ℚ) := by
        rw [hwf]
        exact_mod_cast hc_le
      refine ⟨?_, ?_, fun h => absurd h h0, fun _ => by ring, hgen⟩
      · positivity
      · calc ((c : ℚ) / (session.total_questions : ℚ)) * 100
            ≤ 1 * 100 := by
              refine mul_le_mul_of_nonneg_right ?_ (by norm_num)
              exact (div_le_one htpos).mpr hc_le_t
        _ = 100 := by norm_num

/-- Witness for C5 at a concrete well-formed one-question session. -/
theorem score_quiz_percentage_safe_witness :
    0 ≤ (score_quiz oneQuestionSession [0] 30 "t" []).1.percentage ∧
    (score_quiz oneQuestionSession [0] 30 "t" []).1.percentage ≤ 100 := by
  have h := score_quiz_percentage_safe oneQuestionSession [0] 30 "t" [] (by decide)
  exact ⟨h.1, h.2.1⟩

end AgenticTutor
